import Mathlib

/-!
Verification of the isoproxy gateway (src/isoproxy) against its
natural-language specification.

The Python modules are shallowly embedded as pure Lean functions:

* `errors.py`    : `UPSTREAM_ERROR_MAP`, `create_error_response`,
                   `normalize_upstream_error`, `proxy_upstream_error_handler`.
* `config.py`    : `ProxyConfig` (pydantic `BaseSettings`) and its field
                   validators as `mkProxyConfig`, plus the accessors
                   `get_active_provider_config`, `get_upstream_endpoint`,
                   `get_api_key`.
* `models.py`    : `Message`, `MessagesRequest` and the pydantic validation
                   of a parsed JSON body as `model_validate`.
* `validation.py`: `apply_model_override`, `prepare_request_payload`
                   (pydantic `model_dump(exclude_none=True)` as `model_dump`).
* `proxy.py`     : `safe_forward_request` (with its try/except chain),
                   `validate_request_size`.
* `main.py`      : the `/v1/messages` handler (`messages`), the 405 handler
                   and the catch-all route, combined in `route`.

JSON values are a first-order tree (`Json`); Python byte strings appear only
through their length and their JSON-parse result (`InboundBody`).  The
behaviour of the network is a parameter (`UpstreamOutcome`): either an
upstream HTTP response or a transport-level httpx exception.  Each embedded
function additionally reports the upstream call it issued, if any
(`Option SentCall`), so that "no upstream call is made" properties can be
stated.
-/

/-- JSON values, numbers as rationals. -/
inductive Json where
  | null : Json
  | bool (b : Bool) : Json
  | num (q : Rat) : Json
  | str (s : String) : Json
  | arr (elems : List Json) : Json
  | obj (fields : List (String × Json)) : Json

/-- Field lookup on a JSON object (`d.get(k)` / `d[k]`); `none` on non-objects. -/
def Json.field : Json → String → Option Json
  | .obj fields, k => fields.lookup k
  | _, _ => none

/-- The list of top-level keys of a JSON object (`d.keys()`). -/
def Json.topKeys : Json → List String
  | .obj fields => fields.map Prod.fst
  | _ => []

/-! ## errors.py -/

/-- `class ProxyUpstreamError(Exception)` from errors.py, carrying `str(exc)`. -/
structure ProxyUpstreamError where
  msg : String
deriving DecidableEq

/-- `create_error_response` from errors.py: the standardized error envelope
`{"type": "error", "error": {"type": kind, "message": message}}`. -/
def create_error_response (error_type : String) (message : String) : Json :=
  .obj [("type", .str "error"),
        ("error", .obj [("type", .str error_type), ("message", .str message)])]

/-- `UPSTREAM_ERROR_MAP` from errors.py: upstream status code to
(error_type, message). -/
def UPSTREAM_ERROR_MAP : List (Int × (String × String)) :=
  [(400, ("invalid_request", "The request was malformed or missing required parameters")),
   (401, ("authentication_error", "Authentication failed")),
   (403, ("permission_denied", "Access to the requested resource is forbidden")),
   (404, ("not_found", "The requested resource was not found")),
   (429, ("rate_limited", "Rate limit exceeded")),
   (500, ("upstream_error", "The provider encountered an internal error")),
   (502, ("upstream_error", "The provider is temporarily unavailable")),
   (503, ("upstream_error", "The provider is temporarily unavailable")),
   (529, ("upstream_error", "The provider is temporarily overloaded"))]

/-- `normalize_upstream_error` from errors.py: map an upstream status code to
the (status, standardized body) pair actually returned.  The source consults
only `status_code`; the table branch, the unmapped-4xx branch, the
unmapped-5xx branch and the defensive fallback are as in the source. -/
def normalize_upstream_error (status_code : Int) : Int × Json :=
  match UPSTREAM_ERROR_MAP.lookup status_code with
  | some (error_type, message) => (status_code, create_error_response error_type message)
  | none =>
    if 400 ≤ status_code ∧ status_code < 500 then
      (status_code, create_error_response "client_error" "The request could not be processed")
    else if 500 ≤ status_code then
      (status_code, create_error_response "upstream_error" "The provider encountered an error")
    else
      (502, create_error_response "upstream_error" "Unexpected provider response")

/-- `proxy_upstream_error_handler` from errors.py: every `ProxyUpstreamError`
is turned into a 502 with the fixed standardized body; the exception content
is only logged, never rendered. -/
def proxy_upstream_error_handler (_exc : ProxyUpstreamError) : Nat × Json :=
  (502, create_error_response "proxy_error" "Upstream request failed")

/-! ## Mirror of the claimed error-taxonomy behaviour

`normalize_upstream_error_claim` restates, clause for clause, the behaviour
asserted by the specification for the error taxonomy: each code of the static
table yields that code's fixed (kind, message) envelope; an unmapped 4xx
yields `client_error` with the generic message; an unmapped code ≥ 500 yields
`upstream_error` with the generic message; anything else collapses to
`(502, upstream_error, "Unexpected provider response")`. -/
def normalize_upstream_error_claim (s : Int) : Int × Json :=
  if s = 400 then (s, create_error_response "invalid_request" "The request was malformed or missing required parameters")
  else if s = 401 then (s, create_error_response "authentication_error" "Authentication failed")
  else if s = 403 then (s, create_error_response "permission_denied" "Access to the requested resource is forbidden")
  else if s = 404 then (s, create_error_response "not_found" "The requested resource was not found")
  else if s = 429 then (s, create_error_response "rate_limited" "Rate limit exceeded")
  else if s = 500 then (s, create_error_response "upstream_error" "The provider encountered an internal error")
  else if s = 502 then (s, create_error_response "upstream_error" "The provider is temporarily unavailable")
  else if s = 503 then (s, create_error_response "upstream_error" "The provider is temporarily unavailable")
  else if s = 529 then (s, create_error_response "upstream_error" "The provider is temporarily overloaded")
  else if 400 ≤ s ∧ s < 500 then (s, create_error_response "client_error" "The request could not be processed")
  else if 500 ≤ s then (s, create_error_response "upstream_error" "The provider encountered an error")
  else (502, create_error_response "upstream_error" "Unexpected provider response")

/-- C2: `normalize_upstream_error` is a pure function of the status code
alone and agrees, on every integer status code, with the behaviour stated
in the specification: the nine table entries keep their status and fixed
(kind, message) envelope, unmapped 4xx codes collapse to `client_error`,
unmapped codes ≥ 500 collapse to `upstream_error`, and every other code
collapses to `(502, upstream_error, "Unexpected provider response")`. -/
theorem c2_normalize_upstream_error_matches_claim (s : Int) :
    normalize_upstream_error s = normalize_upstream_error_claim s := by
  by_cases h400 : s = 400
  · subst h400; rfl
  by_cases h401 : s = 401
  · subst h401; rfl
  by_cases h403 : s = 403
  · subst h403; rfl
  by_cases h404 : s = 404
  · subst h404; rfl
  by_cases h429 : s = 429
  · subst h429; rfl
  by_cases h500 : s = 500
  · subst h500; rfl
  by_cases h502 : s = 502
  · subst h502; rfl
  by_cases h503 : s = 503
  · subst h503; rfl
  by_cases h529 : s = 529
  · subst h529; rfl
  have e400 : (s == 400) = false := beq_eq_false_iff_ne.mpr h400
  have e401 : (s == 401) = false := beq_eq_false_iff_ne.mpr h401
  have e403 : (s == 403) = false := beq_eq_false_iff_ne.mpr h403
  have e404 : (s == 404) = false := beq_eq_false_iff_ne.mpr h404
  have e429 : (s == 429) = false := beq_eq_false_iff_ne.mpr h429
  have e500 : (s == 500) = false := beq_eq_false_iff_ne.mpr h500
  have e502 : (s == 502) = false := beq_eq_false_iff_ne.mpr h502
  have e503 : (s == 503) = false := beq_eq_false_iff_ne.mpr h503
  have e529 : (s == 529) = false := beq_eq_false_iff_ne.mpr h529
  have hlookup : UPSTREAM_ERROR_MAP.lookup s = none := by
    simp [UPSTREAM_ERROR_MAP, List.lookup, e400, e401, e403, e404, e429, e500, e502, e503, e529]
  unfold normalize_upstream_error normalize_upstream_error_claim
  rw [hlookup]
  simp only [h400, h401, h403, h404, h429, h500, h502, h503, h529, if_false]

/-! ## config.py -/

/-- One entry of the `providers` map from config.py: the keys the source
reads off each `Dict[str, Any]` provider entry (`"endpoint"`,
`"api_key_env"`). -/
structure ProviderConfig where
  endpoint : String
  api_key_env : String
deriving DecidableEq

/-- The process environment (`os.getenv`), as a key/value list. -/
abbrev Env := List (String × String)

/-- `ProxyConfig` from config.py: the validated, immutable configuration.
The fields are exactly the pydantic fields of the class; `providers` is
modelled as an association list. -/
structure ProxyConfig where
  providers : List (String × ProviderConfig)
  provider : String
  max_request_bytes : Nat
  max_response_bytes : Nat
  timeout_seconds : Nat
  host : String
  port : Nat
  logging_mode : String

/-- The spec's `ConfigError`: in the source a pydantic `ValidationError`
raised while constructing `ProxyConfig`. -/
structure ConfigError where
  msg : String

/-- Construction of `ProxyConfig` from config.py, i.e. pydantic validation in
field-declaration order: `providers` (unconstrained), `provider` (the
`validate_provider` field validator: must be a key of `providers`),
`max_request_bytes` (ge 1024), `max_response_bytes` (ge 1024),
`timeout_seconds` (ge 1, le 600), `host` (unconstrained), `port` (ge 1,
le 65535), `logging_mode` (the `validate_logging_mode` validator).
Note that construction never consults the process environment: the
credential is not resolved here. -/
def mkProxyConfig (providers : List (String × ProviderConfig)) (provider : String)
    (max_request_bytes max_response_bytes timeout_seconds : Nat)
    (host : String) (port : Nat) (logging_mode : String) :
    Except ConfigError ProxyConfig :=
  if (providers.lookup provider).isNone then
    .error ⟨"Provider " ++ provider ++ " not in allowlist"⟩
  else if max_request_bytes < 1024 then
    .error ⟨"max_request_bytes: Input should be greater than or equal to 1024"⟩
  else if max_response_bytes < 1024 then
    .error ⟨"max_response_bytes: Input should be greater than or equal to 1024"⟩
  else if timeout_seconds < 1 then
    .error ⟨"timeout_seconds: Input should be greater than or equal to 1"⟩
  else if 600 < timeout_seconds then
    .error ⟨"timeout_seconds: Input should be less than or equal to 600"⟩
  else if port < 1 then
    .error ⟨"port: Input should be greater than or equal to 1"⟩
  else if 65535 < port then
    .error ⟨"port: Input should be less than or equal to 65535"⟩
  else if ¬(logging_mode = "off" ∨ logging_mode = "metadata" ∨ logging_mode = "debug") then
    .error ⟨"logging_mode must be one of: off, metadata, debug"⟩
  else
    .ok ⟨providers, provider, max_request_bytes, max_response_bytes,
         timeout_seconds, host, port, logging_mode⟩

/-- `get_active_provider_config` from config.py: `self.providers[self.provider]`
(`none` models the `KeyError` on a missing key). -/
def get_active_provider_config (config : ProxyConfig) : Option ProviderConfig :=
  config.providers.lookup config.provider

/-- Python exceptions that can arise inside `safe_forward_request`'s `try`
block, each carrying what the source later reads off it (`type(e).__name__`
and, for the httpx exceptions, `str(e)`). -/
inductive PyExc where
  | timeoutException (text : String) : PyExc
  | requestError (typeName : String) (text : String) : PyExc
  | proxyUpstreamError (msg : String) : PyExc
  | valueError (msg : String) : PyExc
  | keyError (msg : String) : PyExc
deriving DecidableEq

/-- `type(e).__name__` for the exceptions of `PyExc`. -/
def PyExc.typeName : PyExc → String
  | .timeoutException _ => "TimeoutException"
  | .requestError n _ => n
  | .proxyUpstreamError _ => "ProxyUpstreamError"
  | .valueError _ => "ValueError"
  | .keyError _ => "KeyError"

/-- `str.rstrip("/")` on the endpoint. -/
def rstripSlashes (s : String) : String :=
  String.mk ((s.toList.reverse.dropWhile (fun c => c = '/')).reverse)

/-- `get_upstream_endpoint` from config.py: the active provider's endpoint
with trailing slashes removed, suffixed by `/v1/messages`. -/
def get_upstream_endpoint (config : ProxyConfig) : Except PyExc String :=
  match get_active_provider_config config with
  | none => .error (.keyError config.provider)
  | some pc => .ok (rstripSlashes pc.endpoint ++ "/v1/messages")

/-- `get_api_key` from config.py: read the active provider's `api_key_env`
variable from the environment at call time; a missing or empty value raises
`ValueError` (Python falsiness of the empty string). -/
def get_api_key (config : ProxyConfig) (env : Env) : Except PyExc String :=
  match get_active_provider_config config with
  | none => .error (.keyError config.provider)
  | some pc =>
    match env.lookup pc.api_key_env with
    | some api_key =>
      if api_key = "" then
        .error (.valueError ("API key not found in environment variable: " ++ pc.api_key_env))
      else .ok api_key
    | none => .error (.valueError ("API key not found in environment variable: " ++ pc.api_key_env))

/-! ## models.py -/

/-- `Message` from models.py: `role` is validated against the literal set
`{"user", "assistant"}`; `content` (`str | list[dict[str, Any]]`) is kept as
the original JSON value. -/
structure Message where
  role : String
  content : Json

/-- `MessagesRequest` from models.py, one field per pydantic field, in
declaration order.  `Any`-typed pieces (`content`, `metadata`, `system`) are
kept as JSON values. -/
structure MessagesRequest where
  model : String
  messages : List Message
  max_tokens : Int
  metadata : Option Json
  stop_sequences : Option (List String)
  stream : Bool
  system : Option Json
  temperature : Option Rat
  top_k : Option Int
  top_p : Option Rat

/-- Is this JSON value an object (a Python `dict`)? -/
def Json.isObj : Json → Bool
  | .obj _ => true
  | _ => false

/-- Pydantic validation of `content: str | list[dict[str, Any]]` (also used
for `system`): a string, or a list whose members are all objects.  Returns
the original JSON value. -/
def validateStrOrDictList (j : Json) : Except String Json :=
  match j with
  | .str _ => .ok j
  | .arr elems => if elems.all Json.isObj then .ok j
                  else .error "Input should be a valid dictionary"
  | _ => .error "Input should be a valid string or a list of dictionaries"

/-- Pydantic validation of one element of `messages: list[Message]`:
`role` must be `"user"` or `"assistant"`, `content` a string or a list of
dictionaries; extra keys are ignored. -/
def validateMessage (j : Json) : Except String Message :=
  match j with
  | .obj fields =>
    match fields.lookup "role" with
    | some (.str r) =>
      if r = "user" ∨ r = "assistant" then
        match fields.lookup "content" with
        | some c =>
          match validateStrOrDictList c with
          | .ok c => .ok ⟨r, c⟩
          | .error e => .error e
        | none => .error "content: Field required"
      else .error "role: Input should be user or assistant"
    | some _ => .error "role: Input should be user or assistant"
    | none => .error "role: Field required"
  | _ => .error "messages: Input should be a valid dictionary"

/-- Pydantic validation of an `int`-typed value: a JSON number with
denominator 1. -/
def jsonToInt (j : Json) : Except String Int :=
  match j with
  | .num q => if q.den = 1 then .ok q.num else .error "Input should be a valid integer"
  | _ => .error "Input should be a valid integer"

/-- An optional field of the top-level object: absent, or present as JSON
`null`, yields `none`. -/
def optionalField (fields : List (String × Json)) (k : String) : Option Json :=
  match fields.lookup k with
  | some .null => none
  | some v => some v
  | none => none

/-- `MessagesRequest.model_validate` from models.py: pydantic validation of
the parsed JSON body.  Required fields `model` (str), `messages` (list of
`Message`, `min_length=1`), `max_tokens` (int, `ge=1`); optional fields with
their declared bounds; unknown top-level fields are ignored (the pydantic
default); finally the `validate_no_streaming` model validator rejects
`stream=True`. -/
def model_validate (data : Json) : Except String MessagesRequest :=
  match data with
  | .obj fields =>
    match fields.lookup "model" with
    | some (.str model) =>
      (match fields.lookup "messages" with
       | some (.arr msgsJ) =>
         match msgsJ.mapM validateMessage with
         | .error e => .error e
         | .ok msgs =>
           if msgs.length < 1 then .error "messages: List should have at least 1 item"
           else
             match fields.lookup "max_tokens" with
             | some mtJ =>
               (match jsonToInt mtJ with
                | .error e => .error ("max_tokens: " ++ e)
                | .ok mt =>
                  if mt < 1 then .error "max_tokens: Input should be greater than or equal to 1"
                  else
                    (match optionalField fields "metadata" with
                     | some m =>
                       if m.isObj then validateOptionals model msgs mt (some m) fields
                       else .error "metadata: Input should be a valid dictionary"
                     | none => validateOptionals model msgs mt none fields))
             | none => .error "max_tokens: Field required"
       | some _ => .error "messages: Input should be a valid list"
       | none => .error "messages: Field required")
    | some _ => .error "model: Input should be a valid string"
    | none => .error "model: Field required"
  | _ => .error "Input should be a valid dictionary"
where
  /-- Validation of the remaining optional fields (`stop_sequences`,
  `stream`, `system`, `temperature`, `top_k`, `top_p`) and the
  `validate_no_streaming` model validator. -/
  validateOptionals (model : String) (msgs : List Message) (mt : Int)
      (metadata : Option Json) (fields : List (String × Json)) :
      Except String MessagesRequest :=
    match optionalField fields "stop_sequences" with
    | some (.arr elems) =>
      match elems.mapM (fun e => match e with
                                 | .str s => Except.ok s
                                 | _ => Except.error "stop_sequences: Input should be a valid string") with
      | .error e => .error e
      | .ok stops => afterStops model msgs mt metadata (some stops) fields
    | some _ => .error "stop_sequences: Input should be a valid list"
    | none => afterStops model msgs mt metadata none fields
  /-- Continuation after `stop_sequences`. -/
  afterStops (model : String) (msgs : List Message) (mt : Int)
      (metadata : Option Json) (stops : Option (List String))
      (fields : List (String × Json)) : Except String MessagesRequest :=
    match fields.lookup "stream" with
    | some (.bool st) => afterStream model msgs mt metadata stops st fields
    | some _ => .error "stream: Input should be a valid boolean"
    | none => afterStream model msgs mt metadata stops false fields
  /-- Continuation after `stream`; validates `system`, `temperature`,
  `top_k`, `top_p` and runs `validate_no_streaming`. -/
  afterStream (model : String) (msgs : List Message) (mt : Int)
      (metadata : Option Json) (stops : Option (List String)) (st : Bool)
      (fields : List (String × Json)) : Except String MessagesRequest :=
    match optionalField fields "system" with
    | some sv =>
      (match validateStrOrDictList sv with
       | .error e => .error ("system: " ++ e)
       | .ok sv => afterSystem model msgs mt metadata stops st (some sv) fields)
    | none => afterSystem model msgs mt metadata stops st none fields
  /-- Continuation after `system`. -/
  afterSystem (model : String) (msgs : List Message) (mt : Int)
      (metadata : Option Json) (stops : Option (List String)) (st : Bool)
      (sys : Option Json) (fields : List (String × Json)) :
      Except String MessagesRequest :=
    match optionalField fields "temperature" with
    | some (.num t) =>
      if 0 ≤ t ∧ t ≤ 1 then afterTemperature model msgs mt metadata stops st sys (some t) fields
      else .error "temperature: Input should be between 0 and 1"
    | some _ => .error "temperature: Input should be a valid number"
    | none => afterTemperature model msgs mt metadata stops st sys none fields
  /-- Continuation after `temperature`; validates `top_k` and `top_p`,
  builds the record, and applies `validate_no_streaming`. -/
  afterTemperature (model : String) (msgs : List Message) (mt : Int)
      (metadata : Option Json) (stops : Option (List String)) (st : Bool)
      (sys : Option Json) (temp : Option Rat)
      (fields : List (String × Json)) : Except String MessagesRequest :=
    match optionalField fields "top_k" with
    | some kJ =>
      (match jsonToInt kJ with
       | .error e => .error ("top_k: " ++ e)
       | .ok k =>
         if k < 0 then .error "top_k: Input should be greater than or equal to 0"
         else afterTopK model msgs mt metadata stops st sys temp (some k) fields)
    | none => afterTopK model msgs mt metadata stops st sys temp none fields
  /-- Continuation after `top_k`. -/
  afterTopK (model : String) (msgs : List Message) (mt : Int)
      (metadata : Option Json) (stops : Option (List String)) (st : Bool)
      (sys : Option Json) (temp : Option Rat) (k : Option Int)
      (fields : List (String × Json)) : Except String MessagesRequest :=
    match optionalField fields "top_p" with
    | some (.num p) =>
      if 0 ≤ p ∧ p ≤ 1 then noStreaming ⟨model, msgs, mt, metadata, stops, st, sys, temp, k, some p⟩
      else .error "top_p: Input should be between 0 and 1"
    | some _ => .error "top_p: Input should be a valid number"
    | none => noStreaming ⟨model, msgs, mt, metadata, stops, st, sys, temp, k, none⟩
  /-- The `validate_no_streaming` model validator. -/
  noStreaming (r : MessagesRequest) : Except String MessagesRequest :=
    if r.stream then .error "Streaming is not supported by this proxy" else .ok r

/-! ## validation.py and the settings main.py reads -/

/-- The configuration attributes that main.py reads from its config object
(`config.passthrough`, `config.default_model`, `config.upstream_base`,
`config.api_key`, `config.timeout`).  None of these is declared by
`ProxyConfig` in src/isoproxy/config.py; main.py was written against an
earlier configuration class that is absent from src/.  Modelled from the
spec: the configuration is constructed once at startup and shared read-only,
so these attributes are a second immutable record handed to the handlers. -/
structure MainSettings where
  passthrough : Bool
  default_model : Option String
  upstream_base : String
  api_key : String
  timeout : Nat

/-- `apply_model_override` from validation.py: replace `request.model` by
`config.default_model` when that is set (Python truthiness: `None` and the
empty string are falsy). -/
def apply_model_override (request : MessagesRequest) (ms : MainSettings) : MessagesRequest :=
  match ms.default_model with
  | some dm => if dm = "" then request else { request with model := dm }
  | none => request

/-- `Message.model_dump` as used inside `MessagesRequest.model_dump`. -/
def messageDump (m : Message) : Json :=
  .obj [("role", .str m.role), ("content", m.content)]

/-- `MessagesRequest.model_dump(exclude_none=True)`: serialize the fields in
declaration order, skipping optional fields whose value is `None`.  `stream`
is a `bool` field, never `None`, so it is always emitted. -/
def model_dump (r : MessagesRequest) : Json :=
  .obj ([("model", .str r.model),
         ("messages", .arr (r.messages.map messageDump)),
         ("max_tokens", .num (r.max_tokens : Rat))]
    ++ (match r.metadata with | some m => [("metadata", m)] | none => [])
    ++ (match r.stop_sequences with
        | some l => [("stop_sequences", .arr (l.map .str))]
        | none => [])
    ++ [("stream", .bool r.stream)]
    ++ (match r.system with | some sv => [("system", sv)] | none => [])
    ++ (match r.temperature with | some t => [("temperature", .num t)] | none => [])
    ++ (match r.top_k with | some k => [("top_k", .num (k : Rat))] | none => [])
    ++ (match r.top_p with | some p => [("top_p", .num p)] | none => []))

/-- `prepare_request_payload` from validation.py: apply the model override,
then `model_dump(exclude_none=True)`. -/
def prepare_request_payload (request : MessagesRequest) (ms : MainSettings) : Json :=
  model_dump (apply_model_override request ms)

/-! ## Inbound bodies, upstream responses and transport outcomes -/

/-- An inbound request body (`await request.body()`): its byte length, and
the result of `json.loads(raw_body.decode("utf-8"))` — `Except.error` models
a `json.JSONDecodeError` / `UnicodeDecodeError` carrying `str(e)`. -/
structure InboundBody where
  length : Nat
  parse : Except String Json

/-- An upstream httpx response as the forwarding code observes it:
`status_code`, `len(response.content)`, the result of `response.json()`
(`none` models `json.JSONDecodeError`), the `content-type` header (empty
string when absent) and `response.text`. -/
structure UpstreamResponse where
  status_code : Nat
  content_length : Nat
  json_body : Option Json
  content_type : String
  text : String

/-- What the network does for one upstream POST: an HTTP response, an
`httpx.TimeoutException`, or another `httpx.RequestError` (DNS failure,
connection refused, TLS failure, ...) with its class name and message. -/
inductive UpstreamOutcome where
  | response (r : UpstreamResponse)
  | timeout (text : String)
  | networkError (typeName : String) (text : String)

/-- The content handed to `client.post` / `client.request`: a JSON payload
(`json=request_data`) or raw bytes (`content=raw_body`). -/
inductive SentBody where
  | jsonPayload (j : Json)
  | rawBytes (body : InboundBody)

/-- Instrumentation of one upstream call: the URL, the headers, and the body
handed to httpx.  The embedded functions return `Option SentCall` alongside
their result so that "no upstream call is made" can be stated. -/
structure SentCall where
  url : String
  headers : List (String × String)
  body : SentBody

/-- `pat` occurs at the head of the second list. -/
def matchesAt : List Char → List Char → Bool
  | [], _ => true
  | _ :: _, [] => false
  | a :: as, b :: bs => a == b && matchesAt as bs

/-- Substring occurrence on character lists. -/
def containsSubAux (pat : List Char) : List Char → Bool
  | [] => matchesAt pat []
  | c :: rest => matchesAt pat (c :: rest) || containsSubAux pat rest

/-- Python `pat in s` on strings. -/
def containsSub (s pat : String) : Bool :=
  containsSubAux pat.toList s.toList

/-- Python `s.startswith(pat)`. -/
def strStartsWith (s pat : String) : Bool :=
  matchesAt pat.toList s.toList

/-- Python `str.lower()`. -/
def lowerStr (s : String) : String :=
  String.mk (s.toList.map Char.toLower)

/-! ## proxy.py -/

/-- The body substituted by `safe_forward_request` when `response.json()`
raises: `{"error": {"type": "proxy_error", "message": "Non-JSON response
from provider"}}` (note: no top-level `"type": "error"`). -/
def nonJsonSubstituteBody : Json :=
  .obj [("error", .obj [("type", .str "proxy_error"),
                        ("message", .str "Non-JSON response from provider")])]

/-- The response-handling tail of `safe_forward_request`'s `try` block: the
response-size check (raising `ProxyUpstreamError` — still inside the `try`),
then `response.json()` with the `json.JSONDecodeError` substitution, then the
verbatim `(status_code, response_data)` return. -/
def forwardResponse (config : ProxyConfig) (r : UpstreamResponse) :
    Except PyExc (Nat × Json) :=
  if r.content_length > config.max_response_bytes then
    .error (.proxyUpstreamError ("Response too large: " ++ toString r.content_length
      ++ " bytes (limit: " ++ toString config.max_response_bytes ++ ")"))
  else
    match r.json_body with
    | some j => .ok (r.status_code, j)
    | none => .ok (r.status_code, nonJsonSubstituteBody)

/-- The `try` block of `safe_forward_request` from proxy.py: resolve the
endpoint and the credential (each can raise), build the headers (credential
injection, plus `anthropic-version` when `"anthropic" in provider.lower()`),
issue the POST (the transport outcome is the `oc` parameter) and handle the
response.  The second component records the upstream call, if the code
reached `client.post`. -/
def safeForwardTry (request_data : Json) (config : ProxyConfig) (env : Env)
    (oc : UpstreamOutcome) : Except PyExc (Nat × Json) × Option SentCall :=
  match get_upstream_endpoint config with
  | .error e => (.error e, none)
  | .ok upstream_url =>
    match get_api_key config env with
    | .error e => (.error e, none)
    | .ok api_key =>
      let headers := [("Content-Type", "application/json"),
                      ("Authorization", "Bearer " ++ api_key)]
        ++ (if containsSub (lowerStr config.provider) "anthropic" then
              [("anthropic-version", "2023-06-01")] else [])
      let sent := some (SentCall.mk upstream_url headers (.jsonPayload request_data))
      match oc with
      | .timeout t => (.error (.timeoutException t), sent)
      | .networkError n t => (.error (.requestError n t), sent)
      | .response r => (forwardResponse config r, sent)

/-- The `except` chain of `safe_forward_request`: `httpx.TimeoutException`
and `httpx.RequestError` get their dedicated messages; every other exception
— including the `ProxyUpstreamError` raised for an oversized response, which
is itself an `Exception` — is wrapped as `"Unexpected error: <type name>"`. -/
def exceptChain (config : ProxyConfig) : PyExc → ProxyUpstreamError
  | .timeoutException _ => ⟨"Request timed out after " ++ toString config.timeout_seconds ++ "s"⟩
  | .requestError n _ => ⟨"Network error: " ++ n⟩
  | e => ⟨"Unexpected error: " ++ e.typeName⟩

/-- `safe_forward_request` from proxy.py: the `try` block together with its
`except` chain.  Every failure surfaces as a `ProxyUpstreamError`. -/
def safe_forward_request (request_data : Json) (config : ProxyConfig) (env : Env)
    (oc : UpstreamOutcome) : Except ProxyUpstreamError (Nat × Json) × Option SentCall :=
  match safeForwardTry request_data config env oc with
  | (.ok v, sent) => (.ok v, sent)
  | (.error e, sent) => (.error (exceptChain config e), sent)

/-- `validate_request_size` from proxy.py: raise `ProxyUpstreamError` when
`len(request_body) > config.max_request_bytes`.  (No caller in src/ ever
invokes this function.) -/
def validate_request_size (request_body : InboundBody) (config : ProxyConfig) :
    Except ProxyUpstreamError Unit :=
  if request_body.length > config.max_request_bytes then
    .error ⟨"Request too large: " ++ toString request_body.length
      ++ " bytes (limit: " ++ toString config.max_request_bytes ++ ")"⟩
  else .ok ()

/-! ## main.py -/

/-- An HTTP response produced by the gateway: status code and JSON body.
An `HTTPException(status, detail)` renders as `{"detail": detail}`. -/
structure Resp where
  status : Nat
  body : Json

/-- The rendering of `HTTPException(status_code, detail)`. -/
def detailJson (detail : String) : Json :=
  .obj [("detail", .str detail)]

/-- The body-to-payload stage of the `/v1/messages` handler, inside its
outer `try`: in passthrough mode, `json.loads` only; in normal mode,
`json.loads`, then `MessagesRequest.model_validate`, then
`prepare_request_payload`.  Errors are the `HTTPException(status, detail)`
values raised at this stage (400 for invalid JSON, 422 for validation). -/
def messagesPayload (ms : MainSettings) (body : InboundBody) :
    Except (Nat × String) Json :=
  if ms.passthrough then
    match body.parse with
    | .error e => .error (400, "Invalid JSON: " ++ e)
    | .ok data => .ok data
  else
    match body.parse with
    | .error e => .error (400, "Invalid JSON: " ++ e)
    | .ok data =>
      match model_validate data with
      | .error e => .error (422, e)
      | .ok req => .ok (prepare_request_payload req ms)

/-- The `POST /v1/messages` handler from main.py.  The payload stage raises
`HTTPException(400/422, ...)` *inside* the handler's outer `try`, whose
`except Exception` clause catches any `Exception` — `HTTPException`
included — and re-raises `HTTPException(500, "Internal server error")`;
only `ProxyUpstreamError` is re-raised unchanged, reaching the registered
`proxy_upstream_error_handler`.  A successful forward is returned verbatim
as `JSONResponse(status_code, response_body)`. -/
def messages (ms : MainSettings) (cfg : ProxyConfig) (env : Env)
    (body : InboundBody) (oc : UpstreamOutcome) : Resp × Option SentCall :=
  match messagesPayload ms body with
  | .error _ => (Resp.mk 500 (detailJson "Internal server error"), none)
  | .ok payload =>
    match safe_forward_request payload cfg env oc with
    | (.ok (s, b), sent) => (Resp.mk s b, sent)
    | (.error e, sent) =>
      ((fun p => Resp.mk p.1 p.2) (proxy_upstream_error_handler e), sent)

/-- Python `str.lstrip("/")`. -/
def lstripSlashes (s : String) : String :=
  String.mk (s.toList.dropWhile (fun c => c = '/'))

/-- The catch-all route from main.py (every path other than
`/v1/messages`).  In passthrough mode it forwards the raw body to
`upstream_base/<path>` with `Bearer config.api_key` and returns the upstream
response (JSON body when the content type says JSON, `response.text`
otherwise); any exception — transport failure or a `response.json()` error —
becomes `HTTPException(502, "Bad gateway")`.  In normal mode it raises
`HTTPException(404, "Not found")` and performs no upstream call. -/
def catch_all (ms : MainSettings) (path : String) (reqContentType : Option String)
    (body : InboundBody) (oc : UpstreamOutcome) : Resp × Option SentCall :=
  if ms.passthrough then
    let upstream_url := ms.upstream_base ++ "/" ++ lstripSlashes path
    let headers := [("Authorization", "Bearer " ++ ms.api_key),
                    ("Content-Type", reqContentType.getD "application/json")]
    let sent := some (SentCall.mk upstream_url headers (.rawBytes body))
    match oc with
    | .timeout _ => (Resp.mk 502 (detailJson "Bad gateway"), sent)
    | .networkError _ _ => (Resp.mk 502 (detailJson "Bad gateway"), sent)
    | .response r =>
      if strStartsWith r.content_type "application/json" then
        match r.json_body with
        | some j => (Resp.mk r.status_code j, sent)
        | none => (Resp.mk 502 (detailJson "Bad gateway"), sent)
      else (Resp.mk r.status_code (.str r.text), sent)
  else (Resp.mk 404 (detailJson "Not found"), none)

/-- The HTTP methods registered by main.py's route decorators. -/
inductive Method where
  | GET | POST | PUT | DELETE | PATCH | HEAD | OPTIONS
deriving DecidableEq

/-- The routing table of main.py, in registration order: `POST /v1/messages`
goes to the `messages` handler; any other registered method on
`/v1/messages` goes to `messages_method_not_allowed`
(`HTTPException(405, "Method not allowed")`); every other path goes to
`catch_all` (whose `{path:path}` parameter carries no leading slash). -/
def route (ms : MainSettings) (cfg : ProxyConfig) (env : Env) (method : Method)
    (path : String) (reqContentType : Option String) (body : InboundBody)
    (oc : UpstreamOutcome) : Resp × Option SentCall :=
  if path = "/v1/messages" then
    match method with
    | .POST => messages ms cfg env body oc
    | _ => (Resp.mk 405 (detailJson "Method not allowed"), none)
  else
    catch_all ms (lstripSlashes path) reqContentType body oc

/-! ## Concrete values shared by the theorems below -/

/-- The default provider map of config.py. -/
def demoProviders : List (String × ProviderConfig) :=
  [("anthropic", ⟨"https://api.anthropic.com", "ANTHROPIC_API_KEY"⟩)]

/-- A validated configuration with the minimal request-size limit (1024). -/
def demoConfig : ProxyConfig :=
  ⟨demoProviders, "anthropic", 1024, 1048576, 120, "127.0.0.1", 9000, "metadata"⟩

/-- An environment that resolves the provider credential. -/
def demoEnv : Env := [("ANTHROPIC_API_KEY", "test-key-123")]

/-- main.py settings, normal mode, no model override. -/
def demoSettings : MainSettings :=
  ⟨false, none, "https://api.anthropic.com", "test-key-123", 120⟩

/-- main.py settings with passthrough mode enabled. -/
def demoSettingsPT : MainSettings :=
  ⟨true, none, "https://api.anthropic.com", "test-key-123", 120⟩

/-- A minimal valid messages body, as parsed JSON. -/
def demoData : Json :=
  .obj [("model", .str "claude-3-5-sonnet-20241022"),
        ("messages", .arr [.obj [("role", .str "user"), ("content", .str "Hello")]]),
        ("max_tokens", .num 1024)]

/-- A small JSON 200 upstream response. -/
def demoResponse : UpstreamResponse :=
  ⟨200, 100, some (.obj [("id", .str "msg_123")]), "application/json", ""⟩

/-! ## Helper lemmas -/

/-- A successful `get_api_key` pins down the provider entry and the
environment entry it read. -/
theorem get_api_key_ok_elim {config : ProxyConfig} {env : Env} {k : String}
    (h : get_api_key config env = .ok k) :
    ∃ pc, get_active_provider_config config = some pc ∧
      env.lookup pc.api_key_env = some k ∧ k ≠ "" := by
  unfold get_api_key at h
  cases hl : get_active_provider_config config with
  | none => rw [hl] at h; exact absurd h (by simp)
  | some pc =>
    rw [hl] at h
    dsimp only at h
    cases he : env.lookup pc.api_key_env with
    | none => rw [he] at h; exact absurd h (by simp)
    | some v =>
      rw [he] at h
      dsimp only at h
      by_cases hv : v = ""
      · rw [if_pos hv] at h; exact absurd h (by simp)
      · rw [if_neg hv] at h
        injection h with hvk
        subst hvk
        exact ⟨pc, rfl, he, hv⟩

/-- When the credential resolves, `safeForwardTry` reaches `client.post`:
the call is recorded with the verbatim JSON payload, and the result is
determined by the transport outcome. -/
theorem safeForwardTry_of_key {request_data : Json} {config : ProxyConfig}
    {env : Env} {k : String} (h : get_api_key config env = .ok k)
    (oc : UpstreamOutcome) :
    ∃ url headers,
      safeForwardTry request_data config env oc =
        ((match oc with
          | .timeout t => .error (.timeoutException t)
          | .networkError n t => .error (.requestError n t)
          | .response r => forwardResponse config r),
         some ⟨url, headers, .jsonPayload request_data⟩) := by
  obtain ⟨pc, hl, -, -⟩ := get_api_key_ok_elim h
  refine ⟨rstripSlashes pc.endpoint ++ "/v1/messages",
          [("Content-Type", "application/json"), ("Authorization", "Bearer " ++ k)]
            ++ (if containsSub (lowerStr config.provider) "anthropic" then
                  [("anthropic-version", "2023-06-01")] else []), ?_⟩
  unfold safeForwardTry get_upstream_endpoint
  rw [hl]
  dsimp only
  rw [h]
  dsimp only
  cases oc <;> rfl

/-- When the credential fails to resolve with a `ValueError`,
`safeForwardTry` stops before `client.post`: no call is recorded and the
`ValueError` escapes the `try` body. -/
theorem safeForwardTry_of_valueError {request_data : Json} {config : ProxyConfig}
    {env : Env} {m : String}
    (h : get_api_key config env = .error (.valueError m)) (oc : UpstreamOutcome) :
    safeForwardTry request_data config env oc = (.error (.valueError m), none) := by
  have hpc : ∃ pc, get_active_provider_config config = some pc := by
    unfold get_api_key at h
    cases hl : get_active_provider_config config with
    | none => rw [hl] at h; exact absurd h (by simp)
    | some pc => exact ⟨pc, rfl⟩
  obtain ⟨pc, hl⟩ := hpc
  unfold safeForwardTry get_upstream_endpoint
  rw [hl]
  dsimp only
  rw [h]

/-! ## C6 -/

/-- C6: if the active provider name is not a key of the provider map,
`mkProxyConfig` (the embedding of constructing `ProxyConfig`, whose
`validate_provider` field validator checks membership) never succeeds; and
every successfully constructed configuration has its active provider name
among the keys of its provider map. -/
theorem c6_provider_allowlist_closed :
    (∀ providers provider mrq mrs ts host port lm,
        providers.lookup provider = none →
        ∀ c, mkProxyConfig providers provider mrq mrs ts host port lm ≠ Except.ok c) ∧
    (∀ providers provider mrq mrs ts host port lm c,
        mkProxyConfig providers provider mrq mrs ts host port lm = Except.ok c →
        (c.providers.lookup c.provider).isSome = true) := by
  constructor
  · intro providers provider mrq mrs ts host port lm h c hc
    unfold mkProxyConfig at hc
    rw [h] at hc
    simp at hc
  · intro providers provider mrq mrs ts host port lm c hc
    unfold mkProxyConfig at hc
    split_ifs at hc with h1 h2 h3 h4 h5 h6 h7 h8
    injection hc with hc
    subst hc
    cases hx : providers.lookup provider with
    | none => rw [hx] at h1; simp at h1
    | some pc => simp [hx]

/-- Witness for C6: the empty provider map rejects provider `anthropic`, and
the default provider map yields a configuration whose active provider is a
key of its map. -/
theorem c6_provider_allowlist_closed_witness :
    (∀ c, mkProxyConfig [] "anthropic" 2048 2048 120 "127.0.0.1" 9000 "metadata"
        ≠ Except.ok c) ∧
    (demoConfig.providers.lookup demoConfig.provider).isSome = true :=
  ⟨fun c => c6_provider_allowlist_closed.1 [] "anthropic" 2048 2048 120 "127.0.0.1"
      9000 "metadata" rfl c,
   c6_provider_allowlist_closed.2 demoProviders "anthropic" 1024 1048576 120
      "127.0.0.1" 9000 "metadata" demoConfig rfl⟩

/-! ## C5 -/

/-- Counterexample to C5: with the default provider map and an *empty*
process environment — the credential cannot be resolved from its source —
constructing the configuration nevertheless succeeds (construction never
consults the environment), `get_api_key` only fails later, at request time,
inside `safe_forward_request` (as `ValueError`, wrapped into
`ProxyUpstreamError`), and the `/v1/messages` handler surfaces it as a
per-request 502 response.  So a missing credential is not a fatal startup
condition in the code. -/
theorem c5_counterexample_missing_credential_not_startup :
    mkProxyConfig demoProviders "anthropic" 1024 1048576 120 "127.0.0.1" 9000 "metadata"
      = Except.ok demoConfig ∧
    get_api_key demoConfig [] =
      Except.error (.valueError "API key not found in environment variable: ANTHROPIC_API_KEY") ∧
    (safe_forward_request demoData demoConfig [] (.response demoResponse)).1 =
      Except.error ⟨"Unexpected error: ValueError"⟩ ∧
    (messages demoSettingsPT demoConfig [] ⟨100, .ok demoData⟩ (.response demoResponse)).1 =
      Resp.mk 502 (create_error_response "proxy_error" "Upstream request failed") :=
  ⟨rfl, rfl, rfl, rfl⟩

/-- C5 as amended: configuration construction does not resolve the
credential (`mkProxyConfig` takes no environment), so a missing credential
cannot fail startup; it is detected at request time: whenever `get_api_key`
fails with the missing-credential `ValueError`, the `/v1/messages` handler
makes no upstream call and answers with the per-request 502 `proxy_error`
envelope. -/
theorem c5_missing_credential_per_request
    (ms : MainSettings) (cfg : ProxyConfig) (env : Env) (body : InboundBody)
    (data : Json) (m : String) (oc : UpstreamOutcome)
    (hp : ms.passthrough = true) (hb : body.parse = .ok data)
    (hk : get_api_key cfg env = .error (.valueError m)) :
    messages ms cfg env body oc =
      (Resp.mk 502 (create_error_response "proxy_error" "Upstream request failed"), none) := by
  have h1 : messagesPayload ms body = .ok data := by
    simp [messagesPayload, hp, hb]
  have h2 := @safeForwardTry_of_valueError data cfg env m hk oc
  unfold messages
  rw [h1]
  dsimp only
  unfold safe_forward_request
  rw [h2]
  rfl

/-- Witness for C5's amended theorem at a concrete configuration with an
empty environment. -/
theorem c5_missing_credential_per_request_witness :
    messages demoSettingsPT demoConfig [] ⟨100, Except.ok demoData⟩ (.response demoResponse) =
      (Resp.mk 502 (create_error_response "proxy_error" "Upstream request failed"), none) :=
  c5_missing_credential_per_request demoSettingsPT demoConfig [] ⟨100, Except.ok demoData⟩
    demoData "API key not found in environment variable: ANTHROPIC_API_KEY"
    (.response demoResponse) rfl rfl rfl

/-! ## C9 -/

/-- C9: whatever the upstream status code — including success codes — an
upstream response whose body exceeds `max_response_bytes` makes
`safe_forward_request` fail with a `ProxyUpstreamError`; the response is
never returned.  (The size check raises `ProxyUpstreamError` inside the
`try` block, so the generic `except Exception` clause re-wraps it as
`"Unexpected error: ProxyUpstreamError"`.) -/
theorem c9_oversized_response_fails (request_data : Json) (cfg : ProxyConfig)
    (env : Env) (k : String) (r : UpstreamResponse)
    (hk : get_api_key cfg env = .ok k)
    (hr : r.content_length > cfg.max_response_bytes) :
    (safe_forward_request request_data cfg env (.response r)).1 =
      Except.error ⟨"Unexpected error: ProxyUpstreamError"⟩ := by
  obtain ⟨url, headers, hT⟩ := @safeForwardTry_of_key request_data cfg env k hk (.response r)
  have hF : forwardResponse cfg r =
      .error (.proxyUpstreamError ("Response too large: " ++ toString r.content_length
        ++ " bytes (limit: " ++ toString cfg.max_response_bytes ++ ")")) := by
    unfold forwardResponse
    rw [if_pos hr]
  unfold safe_forward_request
  rw [hT]
  dsimp only
  rw [hF]
  rfl

/-- Witness for C9: a 2 MB 200-response against the demo configuration
(20 MB limit lowered to 1 MB) is rejected. -/
theorem c9_oversized_response_fails_witness :
    (safe_forward_request demoData demoConfig demoEnv
        (.response ⟨200, 2000000, some (.obj [("id", .str "msg_1")]), "application/json", ""⟩)).1 =
      Except.error ⟨"Unexpected error: ProxyUpstreamError"⟩ :=
  c9_oversized_response_fails demoData demoConfig demoEnv "test-key-123"
    ⟨200, 2000000, some (.obj [("id", .str "msg_1")]), "application/json", ""⟩
    rfl (by decide)

/-! ## C10 -/

/-- C10: an upstream response within the size limit whose body is not valid
JSON does not make `safe_forward_request` fail and is not passed through:
the function returns the upstream status code with the substituted body
`{"error": {"type": "proxy_error", "message": "Non-JSON response from
provider"}}`, which has no top-level `"type"` field. -/
theorem c10_non_json_body_substituted (request_data : Json) (cfg : ProxyConfig)
    (env : Env) (k : String) (r : UpstreamResponse)
    (hk : get_api_key cfg env = .ok k)
    (hsize : r.content_length ≤ cfg.max_response_bytes)
    (hj : r.json_body = none) :
    (safe_forward_request request_data cfg env (.response r)).1 =
      Except.ok (r.status_code, nonJsonSubstituteBody) ∧
    nonJsonSubstituteBody.field "type" = none := by
  refine ⟨?_, rfl⟩
  obtain ⟨url, headers, hT⟩ := @safeForwardTry_of_key request_data cfg env k hk (.response r)
  have hF : forwardResponse cfg r = .ok (r.status_code, nonJsonSubstituteBody) := by
    unfold forwardResponse
    rw [if_neg (Nat.not_lt.mpr hsize), hj]
  unfold safe_forward_request
  rw [hT]
  dsimp only
  rw [hF]

/-- Witness for C10: a small 503 HTML error page is substituted, keeping the
upstream status. -/
theorem c10_non_json_body_substituted_witness :
    (safe_forward_request demoData demoConfig demoEnv
        (.response ⟨503, 60, none, "text/html", "<html>unavailable</html>"⟩)).1 =
      Except.ok (503, nonJsonSubstituteBody) ∧
    nonJsonSubstituteBody.field "type" = none :=
  c10_non_json_body_substituted demoData demoConfig demoEnv "test-key-123"
    ⟨503, 60, none, "text/html", "<html>unavailable</html>"⟩
    rfl (by decide) rfl

/-! ## C8 -/

/-- C8: whenever the upstream call fails at the transport level — an
`httpx.TimeoutException` or any other `httpx.RequestError` (DNS failure,
connection refused, TLS failure), with arbitrary exception text — the
gateway's `/v1/messages` handler answers 502 with exactly
`{"type": "error", "error": {"type": "proxy_error", "message": "Upstream
request failed"}}`.  The body is a constant independent of the exception
carried by the transport failure, so the underlying exception text never
appears in the response. -/
theorem c8_transport_failure_502_fixed_body (ms : MainSettings)
    (cfg : ProxyConfig) (env : Env) (body : InboundBody) (data : Json)
    (k : String) (oc : UpstreamOutcome)
    (hp : ms.passthrough = true) (hb : body.parse = .ok data)
    (hk : get_api_key cfg env = .ok k)
    (htr : ∀ r, oc ≠ .response r) :
    (messages ms cfg env body oc).1 =
      Resp.mk 502 (create_error_response "proxy_error" "Upstream request failed") := by
  have h1 : messagesPayload ms body = .ok data := by
    simp [messagesPayload, hp, hb]
  obtain ⟨url, headers, hT⟩ := @safeForwardTry_of_key data cfg env k hk oc
  unfold messages
  rw [h1]
  dsimp only
  unfold safe_forward_request
  rw [hT]
  cases oc with
  | response r => exact absurd rfl (htr r)
  | timeout t => rfl
  | networkError n t => rfl

/-- Witness for C8: a connection-refused `httpx.ConnectError` whose text
names an internal host still yields the fixed 502 envelope. -/
theorem c8_transport_failure_502_fixed_body_witness :
    (messages demoSettingsPT demoConfig demoEnv ⟨100, Except.ok demoData⟩
        (.networkError "ConnectError" "All connection attempts failed to internal-host:443")).1 =
      Resp.mk 502 (create_error_response "proxy_error" "Upstream request failed") :=
  c8_transport_failure_502_fixed_body demoSettingsPT demoConfig demoEnv
    ⟨100, Except.ok demoData⟩ demoData "test-key-123"
    (.networkError "ConnectError" "All connection attempts failed to internal-host:443")
    rfl rfl rfl (fun r h => by cases h)

/-! ## C7 -/

/-- An oversized (2 MB body) JSON 200 upstream response against the demo
configuration (1 MB response limit). -/
def demoBigResponse : UpstreamResponse :=
  ⟨200, 2000000, some (.obj [("id", .str "msg_1")]), "application/json", ""⟩

/-- Counterexample to C7 as stated: for the upstream 2xx response
`demoBigResponse` (status 200, body over `max_response_bytes`), the gateway
does not return status 200 with the body unchanged — it answers 502 with the
proxy error envelope.  (Likewise a 2xx body that is not valid JSON would be
substituted, cf. C10.)  So the claim does not hold for *every* 2xx upstream
response. -/
theorem c7_counterexample_oversized_200 :
    demoBigResponse.status_code = 200 ∧
    (messages demoSettingsPT demoConfig demoEnv ⟨100, .ok demoData⟩
        (.response demoBigResponse)).1 =
      Resp.mk 502 (create_error_response "proxy_error" "Upstream request failed") :=
  ⟨rfl, rfl⟩

/-- C7 as amended: for every upstream response with a 2xx status code whose
body is valid JSON and does not exceed `max_response_bytes`, the gateway
returns that status code with the upstream JSON body unchanged. -/
theorem c7_two_xx_returned_verbatim (ms : MainSettings) (cfg : ProxyConfig)
    (env : Env) (body : InboundBody) (data : Json) (k : String)
    (r : UpstreamResponse) (j : Json)
    (hp : ms.passthrough = true) (hb : body.parse = .ok data)
    (hk : get_api_key cfg env = .ok k)
    (_h2a : 200 ≤ r.status_code) (_h2b : r.status_code < 300)
    (hsize : r.content_length ≤ cfg.max_response_bytes)
    (hj : r.json_body = some j) :
    (messages ms cfg env body (.response r)).1 = Resp.mk r.status_code j := by
  have h1 : messagesPayload ms body = .ok data := by
    simp [messagesPayload, hp, hb]
  obtain ⟨url, headers, hT⟩ := @safeForwardTry_of_key data cfg env k hk (.response r)
  have hF : forwardResponse cfg r = .ok (r.status_code, j) := by
    unfold forwardResponse
    rw [if_neg (Nat.not_lt.mpr hsize), hj]
  unfold messages
  rw [h1]
  dsimp only
  unfold safe_forward_request
  rw [hT]
  dsimp only
  rw [hF]

/-- Witness for C7's amended theorem: a small 200 JSON response is returned
with status and body unchanged. -/
theorem c7_two_xx_returned_verbatim_witness :
    (messages demoSettingsPT demoConfig demoEnv ⟨100, Except.ok demoData⟩
        (.response demoResponse)).1 =
      Resp.mk 200 (.obj [("id", .str "msg_123")]) :=
  c7_two_xx_returned_verbatim demoSettingsPT demoConfig demoEnv
    ⟨100, Except.ok demoData⟩ demoData "test-key-123" demoResponse
    (.obj [("id", .str "msg_123")]) rfl rfl rfl (by decide) (by decide) (by decide) rfl

/-! ## C4 -/

/-- A valid-JSON inbound body carrying an extra provider-specific field
`custom_field` unknown to `MessagesRequest`. -/
def demoDataExtra : Json :=
  .obj [("model", .str "m"),
        ("messages", .arr [.obj [("role", .str "user"), ("content", .str "hi")]]),
        ("max_tokens", .num 1),
        ("custom_field", .num 7)]

/-- What the gateway actually sends upstream for `demoDataExtra` in normal
mode: `custom_field` is dropped by pydantic validation and `"stream": false`
is added by `model_dump`. -/
def demoPayloadExtra : Json :=
  .obj [("model", .str "m"),
        ("messages", .arr [.obj [("role", .str "user"), ("content", .str "hi")]]),
        ("max_tokens", .num 1),
        ("stream", .bool false)]

/-- A valid-JSON body that fails schema validation (`max_tokens` missing). -/
def demoDataNoMaxTokens : Json :=
  .obj [("model", .str "m"),
        ("messages", .arr [.obj [("role", .str "user"), ("content", .str "hi")]])]

/-- Counterexample to C4: in normal mode (the passthrough flag off) the
gateway does validate the request schema and does not forward the parsed
body unchanged.  For `demoDataExtra`, the payload sent upstream is
`demoPayloadExtra`: the unknown field `custom_field` has been removed and a
`stream` field has been added, so the sent payload differs from the parsed
inbound body even up to key reordering.  And the valid-JSON body
`demoDataNoMaxTokens` is rejected by schema validation without any upstream
call (answered 500 by the handler's catch-all clause, which swallows the
422 `HTTPException`). -/
theorem c4_counterexample_normal_mode_not_verbatim :
    Option.map SentCall.body
        (messages demoSettings demoConfig demoEnv ⟨80, .ok demoDataExtra⟩
          (.response demoResponse)).2 =
      some (.jsonPayload demoPayloadExtra) ∧
    demoPayloadExtra.topKeys = ["model", "messages", "max_tokens", "stream"] ∧
    demoDataExtra.topKeys = ["model", "messages", "max_tokens", "custom_field"] ∧
    demoPayloadExtra ≠ demoDataExtra ∧
    messages demoSettings demoConfig demoEnv ⟨40, .ok demoDataNoMaxTokens⟩
        (.response demoResponse) =
      (Resp.mk 500 (detailJson "Internal server error"), none) := by
  refine ⟨rfl, rfl, rfl, ?_, rfl⟩
  intro h
  have hkeys := congrArg Json.topKeys h
  simp [Json.topKeys, demoPayloadExtra, demoDataExtra] at hkeys

/-- C4 as amended: in passthrough mode no schema validation is performed and
the JSON payload sent upstream is exactly the parsed inbound body, for every
JSON value (unknown fields included); in normal mode the body is validated
against the `MessagesRequest` schema and the forwarded payload may differ
from the inbound body (unknown fields dropped, `stream` added, `None`
optionals excluded, model possibly overridden), as the counterexample
records. -/
theorem c4_passthrough_forwards_parsed_body (ms : MainSettings)
    (cfg : ProxyConfig) (env : Env) (body : InboundBody) (data : Json)
    (k : String) (oc : UpstreamOutcome)
    (hp : ms.passthrough = true) (hb : body.parse = .ok data)
    (hk : get_api_key cfg env = .ok k) :
    Option.map SentCall.body (messages ms cfg env body oc).2 =
      some (.jsonPayload data) := by
  have h1 : messagesPayload ms body = .ok data := by
    simp [messagesPayload, hp, hb]
  obtain ⟨url, headers, hT⟩ := @safeForwardTry_of_key data cfg env k hk oc
  unfold messages
  rw [h1]
  dsimp only
  unfold safe_forward_request
  rw [hT]
  cases oc with
  | timeout t => rfl
  | networkError n t => rfl
  | response r =>
    dsimp only
    cases hF : forwardResponse cfg r with
    | ok v => obtain ⟨s, b⟩ := v; rfl
    | error e => rfl

/-- Witness for C4's amended theorem: the body with the unknown
`custom_field` is forwarded untouched in passthrough mode. -/
theorem c4_passthrough_forwards_parsed_body_witness :
    Option.map SentCall.body
        (messages demoSettingsPT demoConfig demoEnv ⟨80, Except.ok demoDataExtra⟩
          (.response demoResponse)).2 =
      some (.jsonPayload demoDataExtra) :=
  c4_passthrough_forwards_parsed_body demoSettingsPT demoConfig demoEnv
    ⟨80, Except.ok demoDataExtra⟩ demoDataExtra "test-key-123"
    (.response demoResponse) rfl rfl rfl

/-! ## C3 -/

/-- Counterexample to C3 as stated: with the passthrough flag enabled —
main.py's `catch_all` explicitly forwards arbitrary paths in that mode —
a `GET` to a non-allowlisted path is *not* answered 404: the upstream
response is relayed, and an upstream call is recorded.  So "for every
configuration" the allowlist is not closed. -/
theorem c3_counterexample_passthrough_forwards_any_path :
    (route demoSettingsPT demoConfig demoEnv .GET "/v1/complete" none
        ⟨10, .error "Expecting value"⟩ (.response demoResponse)).1 =
      Resp.mk 200 (.obj [("id", .str "msg_123")]) ∧
    (route demoSettingsPT demoConfig demoEnv .GET "/v1/complete" none
        ⟨10, .error "Expecting value"⟩ (.response demoResponse)).2.isSome = true :=
  ⟨rfl, rfl⟩

/-- C3 as amended: when the passthrough flag is off (the safe design),
every request to a path other than `/v1/messages` is answered 404 with no
upstream call, for every configuration, method, body and network behaviour;
and — in every mode — every request to `/v1/messages` with a registered
method other than POST is answered 405 with no upstream call. -/
theorem c3_allowlist_closed_without_passthrough (ms : MainSettings)
    (cfg : ProxyConfig) (env : Env) (method : Method) (path : String)
    (ct : Option String) (body : InboundBody) (oc : UpstreamOutcome) :
    (ms.passthrough = false → path ≠ "/v1/messages" →
      route ms cfg env method path ct body oc =
        (Resp.mk 404 (detailJson "Not found"), none)) ∧
    (method ≠ Method.POST →
      route ms cfg env method "/v1/messages" ct body oc =
        (Resp.mk 405 (detailJson "Method not allowed"), none)) := by
  constructor
  · intro hp hpath
    unfold route
    rw [if_neg hpath]
    unfold catch_all
    rw [hp]
    rfl
  · intro hm
    unfold route
    rw [if_pos rfl]
    cases method
    all_goals first
      | exact absurd rfl hm
      | rfl

/-- Witness for C3's amended theorem: normal mode, a `GET /v1/complete` is
404 with no upstream call, and a `DELETE /v1/messages` is 405. -/
theorem c3_allowlist_closed_without_passthrough_witness :
    route demoSettings demoConfig demoEnv .GET "/v1/complete" none
        ⟨10, .error "Expecting value"⟩ (.response demoResponse) =
      (Resp.mk 404 (detailJson "Not found"), none) ∧
    route demoSettings demoConfig demoEnv .DELETE "/v1/messages" none
        ⟨10, .error "Expecting value"⟩ (.response demoResponse) =
      (Resp.mk 405 (detailJson "Method not allowed"), none) :=
  ⟨(c3_allowlist_closed_without_passthrough demoSettings demoConfig demoEnv .GET
      "/v1/complete" none ⟨10, .error "Expecting value"⟩ (.response demoResponse)).1
      rfl (by decide),
   (c3_allowlist_closed_without_passthrough demoSettings demoConfig demoEnv .DELETE
      "/v1/messages" none ⟨10, .error "Expecting value"⟩ (.response demoResponse)).2
      (by decide)⟩

/-! ## C1 -/

/-- An inbound body of 2048 bytes — twice `demoConfig.max_request_bytes` —
that is not valid JSON. -/
def demoOversizedInvalid : InboundBody :=
  ⟨2048, .error "Expecting value: line 1 column 1 (char 0)"⟩

/-- An inbound body of 2048 bytes that parses to a valid request. -/
def demoOversizedValid : InboundBody :=
  ⟨2048, .ok demoData⟩

/-- C1, evaluated at the failing input: the gateway never enforces
`max_request_bytes`.  `validate_request_size` would reject the 2048-byte
body against the 1024-byte limit, but no caller in src/ invokes it: the
`/v1/messages` handler JSON-parses the oversized body first — the oversized
invalid-JSON body is answered via the JSON-parse failure path (rendered 500,
because the handler's catch-all `except` swallows its own 400
`HTTPException`), not with a request-too-large error, and the oversized
valid-JSON body is forwarded upstream (an upstream call is recorded and the
upstream 200 is relayed). -/
theorem c1_request_size_limit_never_enforced :
    validate_request_size demoOversizedInvalid demoConfig =
      Except.error ⟨"Request too large: 2048 bytes (limit: 1024)"⟩ ∧
    messages demoSettings demoConfig demoEnv demoOversizedInvalid
        (.response demoResponse) =
      (Resp.mk 500 (detailJson "Internal server error"), none) ∧
    (messages demoSettings demoConfig demoEnv demoOversizedValid
        (.response demoResponse)).2.isSome = true ∧
    (messages demoSettings demoConfig demoEnv demoOversizedValid
        (.response demoResponse)).1 =
      Resp.mk 200 (.obj [("id", .str "msg_123")]) :=
  ⟨rfl, rfl, rfl, rfl⟩
